/-
Verification of the query-building and mutation-handler logic of the
St. Paul crime REST server (`rest_server.mjs`).

The server is an Express app over a SQLite store.  The store itself and the
HTTP transport are external collaborators; what we embed is the decision
logic of the handlers:

* the query-text/parameter-list construction of `GET /codes`,
  `GET /neighborhoods` and `GET /incidents` (string building mirrored
  exactly, including the template-literal whitespace of the source);
* JavaScript semantics the handlers rely on: truthiness of query-string
  values, `String.prototype.split`/`trim`, `parseInt` (returning `none`
  for `NaN`), number-to-string interpolation, and `undefined + 'T'`
  string coercion;
* the check-then-act state transitions of `PUT /new-incident` and
  `DELETE /remove-incident`, with the Incidents table modelled as a list
  of rows and the two SQL statements each handler issues modelled by
  their effect on that list.

`DATE(...)`/`TIME(...)` are store-level SQLite functions, not code of the
repository; where a claim depends on them they are modelled from the spec
(see `dateOf`/`timeOf`).
-/
import Mathlib

namespace RestServer

/-- An HTTP response as the handlers produce it: a status code and a
plain-text or JSON body marker (`res.status(n).send(msg)`). -/
structure Response where
  status : Nat
  body : String
deriving DecidableEq, Repr

/-- JavaScript truthiness of an optional query-string value:
`undefined` (absent) and the empty string are falsy, every other string
is truthy.  This is the `if (req.query.x)` guard of the handlers. -/
def truthy : Option String → Bool
  | none => false
  | some s => !(s == "")

/-- The string value of a present parameter (`""` is never consulted by the
handlers because `truthy` guards every access). -/
def optVal : Option String → String
  | none => ""
  | some s => s

/-- JavaScript string coercion of a possibly-absent body field, as used by
`req.body.date + 'T' + req.body.time`: `undefined` coerces to the string
`"undefined"`. -/
def jsStr : Option String → String
  | none => "undefined"
  | some s => s

/-- ASCII whitespace as JavaScript `trim`/`parseInt` skip it (the
Unicode space classes they also skip are not modelled; no claim uses
them). -/
def jsWs (c : Char) : Bool :=
  c == ' ' || c == '\t' || c == '\n' || c == '\r' || c == '\x0b' || c == '\x0c'

/-- JavaScript `String.prototype.split(',')` over the character list:
every comma separates, empty pieces are kept, the empty input gives one
empty piece. -/
def splitOnComma : List Char → List (List Char)
  | [] => [[]]
  | c :: rest =>
    if c = ',' then [] :: splitOnComma rest
    else
      match splitOnComma rest with
      | [] => [[c]]
      | h :: t => (c :: h) :: t

/-- JavaScript `String.prototype.trim`: drop whitespace from both ends. -/
def jsTrim (s : String) : String :=
  ⟨((s.data.dropWhile jsWs).reverse.dropWhile jsWs).reverse⟩

/-- `value.split(',').map(x => x.trim())`: split on every comma (keeping
empty pieces, as JavaScript `split` does) and trim each piece. -/
def commaSplitTrim (s : String) : List String :=
  (splitOnComma s.data).map (fun l => jsTrim ⟨l⟩)

/-- `elems.map(() => '?').join(',')`: one `?` placeholder per element,
comma-joined. -/
def placeholdersFor (elems : List String) : String :=
  String.intercalate "," (elems.map fun _ => "?")

/-- Number of `?` placeholders occurring in a piece of SQL text. -/
def countQ (s : String) : Nat :=
  s.data.countP (fun c => c == '?')

/-! ### JavaScript `parseInt`

Modelled: skip leading ASCII whitespace, an optional sign, a `0x`/`0X`
hexadecimal prefix, then the longest prefix of digits; no digits means
`NaN`, modelled as `none`.  (Float-precision loss for magnitudes beyond
2^53 is not modelled; no claim depends on it.) -/

/-- Value of a decimal digit run. -/
def decDigitsVal (l : List Char) : Nat :=
  l.foldl (fun acc c => acc * 10 + (c.toNat - '0'.toNat)) 0

/-- Value of one hexadecimal digit. -/
def hexDigitVal (c : Char) : Nat :=
  if c.isDigit then c.toNat - '0'.toNat
  else if 'a' ≤ c ∧ c ≤ 'f' then c.toNat - 'a'.toNat + 10
  else c.toNat - 'A'.toNat + 10

/-- Is `c` a hexadecimal digit? -/
def isHexDigit (c : Char) : Bool :=
  c.isDigit || ('a' ≤ c && c ≤ 'f') || ('A' ≤ c && c ≤ 'F')

/-- Value of a hexadecimal digit run. -/
def hexDigitsVal (l : List Char) : Nat :=
  l.foldl (fun acc c => acc * 16 + hexDigitVal c) 0

/-- JavaScript `parseInt(s)`; `none` is `NaN`. -/
def jsParseInt (s : String) : Option Int :=
  let l := s.data.dropWhile jsWs
  let (sign, l) : Int × List Char :=
    match l with
    | '-' :: rest => (-1, rest)
    | '+' :: rest => (1, rest)
    | _ => (1, l)
  match l with
  | '0' :: c :: rest =>
    if c == 'x' || c == 'X' then
      let ds := rest.takeWhile isHexDigit
      if ds.isEmpty then none else some (sign * hexDigitsVal ds)
    else
      let ds := ('0' :: c :: rest).takeWhile Char.isDigit
      some (sign * decDigitsVal ds)
  | _ =>
    let ds := l.takeWhile Char.isDigit
    if ds.isEmpty then none else some (sign * decDigitsVal ds)

/-- Rendering of the `limit` number into the template literal
`` ` LIMIT ${limit}` ``: an integer prints in decimal, `NaN` prints as
`"NaN"`. -/
def numDisplay : Option Int → String
  | some n => toString n
  | none => "NaN"

/-! ### GET /codes and GET /neighborhoods -/

/-- Query construction of `GET /codes`: base select, an optional
`WHERE code IN (...)` from the comma-split `code` parameter, fixed
`ORDER BY code`.  Returns `(sqlText, boundParams)`. -/
def codesHandlerQuery (code : Option String) : String × List String :=
  let query := "SELECT code, incident_type FROM Codes"
  if truthy code then
    let codes := commaSplitTrim (optVal code)
    let query := query ++ " WHERE code IN (" ++ placeholdersFor codes ++ ")"
    (query ++ " ORDER BY code", codes)
  else
    (query ++ " ORDER BY code", [])

/-- Query construction of `GET /neighborhoods`: base select, an optional
`WHERE neighborhood_number IN (...)` from the comma-split `id` parameter,
fixed `ORDER BY neighborhood_number`. -/
def neighborhoodsHandlerQuery (id : Option String) : String × List String :=
  let query := "SELECT neighborhood_number, neighborhood_name FROM Neighborhoods"
  if truthy id then
    let ids := commaSplitTrim (optVal id)
    let query := query ++ " WHERE neighborhood_number IN (" ++ placeholdersFor ids ++ ")"
    (query ++ " ORDER BY neighborhood_number", ids)
  else
    (query ++ " ORDER BY neighborhood_number", [])

/-! ### GET /incidents -/

/-- The recognized query parameters of `GET /incidents`; `none` is an
absent parameter. -/
structure IncidentsQuery where
  start_date : Option String := none
  end_date : Option String := none
  code : Option String := none
  grid : Option String := none
  neighborhood : Option String := none
  limit : Option String := none
deriving DecidableEq, Repr

/-- The base select of `GET /incidents`, exactly as the source's template
literal spells it (newlines and trailing blanks included). -/
def incidentsBase : String :=
  "\n            SELECT case_number, \n                   DATE(date_time) as date, \n                   TIME(date_time) as time,\n                   code, \n                   incident, \n                   police_grid, \n                   neighborhood_number, \n                   block\n            FROM Incidents\n        "

/-- The `whereClauses` and `params` arrays of `GET /incidents` after the
five filter blocks have run, in source order: `start_date`, `end_date`,
`code`, `grid`, `neighborhood`. -/
def incidentsWhere (q : IncidentsQuery) : List String × List String :=
  let wcs : List String := []
  let params : List String := []
  let (wcs, params) :=
    if truthy q.start_date then
      (wcs ++ ["date(date_time) >= ?"], params ++ [optVal q.start_date])
    else (wcs, params)
  let (wcs, params) :=
    if truthy q.end_date then
      (wcs ++ ["date(date_time) <= ?"], params ++ [optVal q.end_date])
    else (wcs, params)
  let (wcs, params) :=
    if truthy q.code then
      let codes := commaSplitTrim (optVal q.code)
      (wcs ++ ["code IN (" ++ placeholdersFor codes ++ ")"], params ++ codes)
    else (wcs, params)
  let (wcs, params) :=
    if truthy q.grid then
      let grids := commaSplitTrim (optVal q.grid)
      (wcs ++ ["police_grid IN (" ++ placeholdersFor grids ++ ")"], params ++ grids)
    else (wcs, params)
  let (wcs, params) :=
    if truthy q.neighborhood then
      let neighborhoods := commaSplitTrim (optVal q.neighborhood)
      (wcs ++ ["neighborhood_number IN (" ++ placeholdersFor neighborhoods ++ ")"],
        params ++ neighborhoods)
    else (wcs, params)
  (wcs, params)

/-- The query text of `GET /incidents` up to and including the fixed
`ORDER BY`, before the `LIMIT` fragment is appended. -/
def incidentsTextNoLimit (q : IncidentsQuery) : String :=
  let query := incidentsBase
  let wcs := (incidentsWhere q).1
  let query :=
    if wcs.length > 0 then query ++ " WHERE " ++ String.intercalate " AND " wcs
    else query
  query ++ " ORDER BY date_time DESC"

/-- `req.query.limit ? parseInt(req.query.limit) : 1000`: the row-cap
number, `none` meaning `NaN`. -/
def limitValue (limit : Option String) : Option Int :=
  if truthy limit then jsParseInt (optVal limit) else some 1000

/-- Query construction of `GET /incidents`: base select, `AND`-joined
where clauses when any filter is present, fixed `ORDER BY date_time DESC`,
then `` ` LIMIT ${limit}` `` with the limit number interpolated into the
text.  Returns `(sqlText, boundParams)`. -/
def incidentsHandlerQuery (q : IncidentsQuery) : String × List String :=
  (incidentsTextNoLimit q ++ " LIMIT " ++ numDisplay (limitValue q.limit),
    (incidentsWhere q).2)

/-! ### The Incidents table and the mutation handlers

The store is modelled as the list of rows of the `Incidents` table, in
insertion (rowid) order.  Each handler issues at most two SQL statements;
`SELECT ... WHERE case_number = ?` is modelled by `List.filter`,
`INSERT` by appending a row, and `DELETE ... WHERE case_number = ?` by
dropping every row with that case number. -/

/-- A row of the `Incidents` table.  `date_time` is the stored combined
timestamp (always a string: the handler concatenates it); the remaining
payload columns hold whatever the request body supplied, `none` standing
for an absent field bound as NULL. -/
structure IncidentRow where
  case_number : String
  date_time : String
  code : Option String := none
  incident : Option String := none
  police_grid : Option String := none
  neighborhood_number : Option String := none
  block : Option String := none
deriving DecidableEq, Repr

/-- The body of a `PUT /new-incident` request; `none` is a field missing
from the JSON body (JavaScript `undefined`). -/
structure NewIncidentBody where
  case_number : String
  date : Option String := none
  time : Option String := none
  code : Option String := none
  incident : Option String := none
  police_grid : Option String := none
  neighborhood_number : Option String := none
  block : Option String := none
deriving DecidableEq, Repr

/-- The row inserted by `PUT /new-incident`: the combined timestamp is
`req.body.date + 'T' + req.body.time` (JavaScript string coercion), the
other six fields are passed through untouched. -/
def mkRow (b : NewIncidentBody) : IncidentRow :=
  { case_number := b.case_number
    date_time := jsStr b.date ++ "T" ++ jsStr b.time
    code := b.code
    incident := b.incident
    police_grid := b.police_grid
    neighborhood_number := b.neighborhood_number
    block := b.block }

/-- `PUT /new-incident`: check-then-act.  Select the rows with the body's
case number; if any exist answer 500 "Case number already exists" and
leave the table alone, otherwise insert the new row and answer 200 "OK".
Returns the table after the request and the response. -/
def newIncidentHandler (db : List IncidentRow) (b : NewIncidentBody) :
    List IncidentRow × Response :=
  let existing := db.filter (fun r => r.case_number == b.case_number)
  if existing.length > 0 then
    (db, ⟨500, "Case number already exists"⟩)
  else
    (db ++ [mkRow b], ⟨200, "OK"⟩)

/-- `DELETE /remove-incident`: check-then-act.  Select the rows with the
body's case number; if none exist answer 500 "Case number does not exist"
and leave the table alone, otherwise delete every row with that case
number and answer 200 "OK". -/
def removeIncidentHandler (db : List IncidentRow) (case_number : String) :
    List IncidentRow × Response :=
  let existing := db.filter (fun r => r.case_number == case_number)
  if existing.length == 0 then
    (db, ⟨500, "Case number does not exist"⟩)
  else
    (db.filter (fun r => !(r.case_number == case_number)), ⟨200, "OK"⟩)

/-! ### Store-level date/time split -/

/-- Modelled from the spec: the store-level split of the combined
timestamp into the `date` field (`DATE(date_time)` in the select of
`GET /incidents` — a SQLite builtin, not code of this repository).  Per
spec §4.2 the handler "split[s] the stored combined timestamp into
separate `date` and `time` fields at the store level": the date part is
everything before the first `'T'`. -/
def dateOf (s : String) : String :=
  ⟨s.data.takeWhile (fun c => c != 'T')⟩

/-- Modelled from the spec: the store-level split of the combined
timestamp into the `time` field (`TIME(date_time)` — SQLite builtin, not
code of this repository): everything after the first `'T'`. -/
def timeOf (s : String) : String :=
  ⟨(s.data.dropWhile (fun c => c != 'T')).drop 1⟩

/-! ### Shapes and auxiliary forms used by the theorems -/

/-- The comma-joined placeholder string for `n` elements. -/
def phOfLen (n : Nat) : String :=
  String.intercalate "," (List.replicate n "?")

/-- The *shape* of a list-membership filter value: absent/empty gives
`none`, a truthy value gives the number of its comma-separated elements.
Two values of the same shape are indistinguishable to the SQL text. -/
def listShape (o : Option String) : Option Nat :=
  if truthy o then some (commaSplitTrim (optVal o)).length else none

/-- The shape of a `GET /incidents` request as far as the filter clauses
are concerned: presence of the two date bounds and the element counts of
the three list filters. -/
def incidentsShape (q : IncidentsQuery) :
    Bool × Bool × Option Nat × Option Nat × Option Nat :=
  (truthy q.start_date, truthy q.end_date,
    listShape q.code, listShape q.grid, listShape q.neighborhood)

/-- The shape of a `GET /incidents` request counting every recognized
parameter, the `limit` parameter included. -/
def incidentsFullShape (q : IncidentsQuery) :
    (Bool × Bool × Option Nat × Option Nat × Option Nat) × Option Nat :=
  (incidentsShape q, listShape q.limit)

/-- The `whereClauses` list expressed as a function of the request shape
alone. -/
def clausesOfShape : Bool × Bool × Option Nat × Option Nat × Option Nat → List String
  | (sd, ed, c, g, n) =>
    (if sd then ["date(date_time) >= ?"] else []) ++
    (if ed then ["date(date_time) <= ?"] else []) ++
    (match c with
     | some k => ["code IN (" ++ phOfLen k ++ ")"]
     | none => []) ++
    (match g with
     | some k => ["police_grid IN (" ++ phOfLen k ++ ")"]
     | none => []) ++
    (match n with
     | some k => ["neighborhood_number IN (" ++ phOfLen k ++ ")"]
     | none => [])

/-- The bound-parameter list of `GET /incidents` in flattened form: the
date bounds, then the split elements of each list filter, in source
order. -/
def incidentsParamsSpec (q : IncidentsQuery) : List String :=
  (if truthy q.start_date then [optVal q.start_date] else []) ++
  (if truthy q.end_date then [optVal q.end_date] else []) ++
  (if truthy q.code then commaSplitTrim (optVal q.code) else []) ++
  (if truthy q.grid then commaSplitTrim (optVal q.grid) else []) ++
  (if truthy q.neighborhood then commaSplitTrim (optVal q.neighborhood) else [])

/-- Replace an empty-string parameter value by an absent one (both are
falsy in JavaScript). -/
def normalizeEmpty : Option String → Option String
  | none => none
  | some s => if s = "" then none else some s

/-- `normalizeEmpty` applied to every recognized parameter of a
`GET /incidents` request. -/
def normalizeQuery (q : IncidentsQuery) : IncidentsQuery :=
  { start_date := normalizeEmpty q.start_date
    end_date := normalizeEmpty q.end_date
    code := normalizeEmpty q.code
    grid := normalizeEmpty q.grid
    neighborhood := normalizeEmpty q.neighborhood
    limit := normalizeEmpty q.limit }

/-! ## Helper lemmas -/

theorem countQ_append (a b : String) : countQ (a ++ b) = countQ a + countQ b := by
  simp [countQ, String.data_append, List.countP_append]

theorem countQ_go (sep : String) (hsep : countQ sep = 0) :
    ∀ (l : List String) (acc : String),
      countQ (String.intercalate.go acc sep l) = countQ acc + (l.map countQ).sum := by
  intro l
  induction l with
  | nil => intro acc; simp [String.intercalate.go]
  | cons a as ih =>
    intro acc
    simp [String.intercalate.go, ih, countQ_append, hsep]
    omega

theorem countQ_intercalate (sep : String) (hsep : countQ sep = 0) (l : List String) :
    countQ (String.intercalate sep l) = (l.map countQ).sum := by
  cases l with
  | nil => rfl
  | cons a as => simp [String.intercalate, countQ_go sep hsep]

theorem countQ_phOfLen (n : Nat) : countQ (phOfLen n) = n := by
  have h : countQ "," = 0 := by decide
  have h1 : countQ "?" = 1 := by decide
  simp [phOfLen, countQ_intercalate "," h, List.map_replicate, h1]

theorem placeholdersFor_eq (l : List String) : placeholdersFor l = phOfLen l.length := by
  simp [placeholdersFor, phOfLen]

theorem countQ_placeholdersFor (l : List String) : countQ (placeholdersFor l) = l.length := by
  rw [placeholdersFor_eq, countQ_phOfLen]

theorem takeWhile_append_T {l : List Char} (r : List Char) (h : ∀ c ∈ l, c ≠ 'T') :
    (l ++ 'T' :: r).takeWhile (fun c => c != 'T') = l := by
  induction l with
  | nil => simp [List.takeWhile]
  | cons a as ih =>
    have ha : a ≠ 'T' := h a (List.mem_cons_self a as)
    have has : ∀ c ∈ as, c ≠ 'T' := fun c hc => h c (List.mem_cons_of_mem a hc)
    have hab : (a != 'T') = true := by simp [bne_iff_ne, ha]
    simp [List.takeWhile, hab, ih has]

theorem dropWhile_append_T {l : List Char} (r : List Char) (h : ∀ c ∈ l, c ≠ 'T') :
    (l ++ 'T' :: r).dropWhile (fun c => c != 'T') = 'T' :: r := by
  induction l with
  | nil => simp [List.dropWhile]
  | cons a as ih =>
    have ha : a ≠ 'T' := h a (List.mem_cons_self a as)
    have has : ∀ c ∈ as, c ≠ 'T' := fun c hc => h c (List.mem_cons_of_mem a hc)
    have hab : (a != 'T') = true := by simp [bne_iff_ne, ha]
    simp [List.dropWhile, hab, ih has]

theorem combined_data (d t : String) :
    (d ++ "T" ++ t).data = d.data ++ 'T' :: t.data := by
  simp [String.data_append]

theorem dateOf_combined (d t : String) (h : 'T' ∉ d.data) :
    dateOf (d ++ "T" ++ t) = d := by
  have hall : ∀ c ∈ d.data, c ≠ 'T' := fun c hc he => h (he ▸ hc)
  apply String.ext
  show ((d ++ "T" ++ t).data.takeWhile (fun c => c != 'T')) = d.data
  rw [combined_data, takeWhile_append_T _ hall]

theorem timeOf_combined (d t : String) (h : 'T' ∉ d.data) :
    timeOf (d ++ "T" ++ t) = t := by
  have hall : ∀ c ∈ d.data, c ≠ 'T' := fun c hc he => h (he ▸ hc)
  apply String.ext
  show (((d ++ "T" ++ t).data.dropWhile (fun c => c != 'T')).drop 1) = t.data
  rw [combined_data, dropWhile_append_T _ hall]
  rfl

theorem incidentsWhere_eq (q : IncidentsQuery) :
    incidentsWhere q = (clausesOfShape (incidentsShape q), incidentsParamsSpec q) := by
  cases hsd : truthy q.start_date <;> cases hed : truthy q.end_date <;>
    cases hc : truthy q.code <;> cases hg : truthy q.grid <;>
    cases hn : truthy q.neighborhood <;>
    simp [incidentsWhere, clausesOfShape, incidentsShape, incidentsParamsSpec,
      listShape, hsd, hed, hc, hg, hn, placeholdersFor_eq]

theorem truthy_normalizeEmpty (o : Option String) :
    truthy (normalizeEmpty o) = truthy o := by
  cases o with
  | none => rfl
  | some s =>
    by_cases h : s = "" <;> simp [normalizeEmpty, truthy, h]

theorem optVal_normalizeEmpty (o : Option String) :
    optVal (normalizeEmpty o) = optVal o := by
  cases o with
  | none => rfl
  | some s =>
    by_cases h : s = "" <;> simp [normalizeEmpty, optVal, h]

theorem filter_case_ne_nil {db : List IncidentRow} {cn : String}
    (h : ∃ r ∈ db, r.case_number = cn) :
    0 < (db.filter (fun r => r.case_number == cn)).length := by
  obtain ⟨r, hr, he⟩ := h
  have : r ∈ db.filter (fun r => r.case_number == cn) :=
    List.mem_filter.mpr ⟨hr, by simp [he]⟩
  exact List.length_pos.mpr (List.ne_nil_of_mem this)

theorem filter_case_nil {db : List IncidentRow} {cn : String}
    (h : ∀ r ∈ db, r.case_number ≠ cn) :
    db.filter (fun r => r.case_number == cn) = [] := by
  apply List.filter_eq_nil_iff.mpr
  intro r hr
  simp [h r hr]

theorem newIncident_dup {db : List IncidentRow} {b : NewIncidentBody}
    (h : ∃ r ∈ db, r.case_number = b.case_number) :
    newIncidentHandler db b = (db, ⟨500, "Case number already exists"⟩) := by
  simp only [newIncidentHandler]
  rw [if_pos (filter_case_ne_nil h)]

theorem newIncident_fresh {db : List IncidentRow} {b : NewIncidentBody}
    (h : ∀ r ∈ db, r.case_number ≠ b.case_number) :
    newIncidentHandler db b = (db ++ [mkRow b], ⟨200, "OK"⟩) := by
  simp only [newIncidentHandler]
  rw [filter_case_nil h]
  simp

theorem removeIncident_absent {db : List IncidentRow} {cn : String}
    (h : ∀ r ∈ db, r.case_number ≠ cn) :
    removeIncidentHandler db cn = (db, ⟨500, "Case number does not exist"⟩) := by
  simp only [removeIncidentHandler]
  rw [filter_case_nil h]
  simp

theorem removeIncident_present {db : List IncidentRow} {cn : String}
    (h : ∃ r ∈ db, r.case_number = cn) :
    removeIncidentHandler db cn =
      (db.filter (fun r => !(r.case_number == cn)), ⟨200, "OK"⟩) := by
  simp only [removeIncidentHandler]
  have hp := filter_case_ne_nil h
  rw [if_neg (by simpa using Nat.pos_iff_ne_zero.mp hp)]

/-! ## Claims -/

/-- C4: a `PUT /new-incident` whose body `case_number` already exists in
the Incidents table answers 500 "Case number already exists" and leaves
the table (row contents and row count) unchanged. -/
theorem claim_C4 (db : List IncidentRow) (b : NewIncidentBody)
    (h : ∃ r ∈ db, r.case_number = b.case_number) :
    newIncidentHandler db b = (db, ⟨500, "Case number already exists"⟩) :=
  newIncident_dup h

theorem claim_C4_witness :
    newIncidentHandler
        [{ case_number := "19245020", date_time := "2023-10-06T14:22:00" }]
        { case_number := "19245020", date := some "2023-10-07", time := some "09:00:00" } =
      ([{ case_number := "19245020", date_time := "2023-10-06T14:22:00" }],
        ⟨500, "Case number already exists"⟩) :=
  claim_C4 _ _ (by decide)

/-- C5: a `DELETE /remove-incident` whose body `case_number` matches no
row answers 500 "Case number does not exist" and leaves the table
unchanged. -/
theorem claim_C5 (db : List IncidentRow) (cn : String)
    (h : ∀ r ∈ db, r.case_number ≠ cn) :
    removeIncidentHandler db cn = (db, ⟨500, "Case number does not exist"⟩) :=
  removeIncident_absent h

theorem claim_C5_witness :
    removeIncidentHandler
        [{ case_number := "19245020", date_time := "2023-10-06T14:22:00" }]
        "99999999" =
      ([{ case_number := "19245020", date_time := "2023-10-06T14:22:00" }],
        ⟨500, "Case number does not exist"⟩) :=
  claim_C5 _ _ (by decide)

/-- C7: a `DELETE /remove-incident` whose body `case_number` exists
answers 200 "OK" and removes exactly the rows with that case number (a
row survives iff it was there and has a different case number); an
immediately repeated delete of the same case number answers 500
"Case number does not exist" and changes nothing. -/
theorem claim_C7 (db : List IncidentRow) (cn : String)
    (h : ∃ r ∈ db, r.case_number = cn) :
    (removeIncidentHandler db cn).2 = ⟨200, "OK"⟩ ∧
    (∀ r, r ∈ (removeIncidentHandler db cn).1 ↔ r ∈ db ∧ r.case_number ≠ cn) ∧
    removeIncidentHandler (removeIncidentHandler db cn).1 cn =
      ((removeIncidentHandler db cn).1, ⟨500, "Case number does not exist"⟩) := by
  rw [removeIncident_present h]
  refine ⟨rfl, ?_, ?_⟩
  · intro r
    simp [List.mem_filter]
  · apply removeIncident_absent
    intro r hr
    have := (List.mem_filter.mp hr).2
    simpa using this

theorem claim_C7_witness :
    (removeIncidentHandler
        [{ case_number := "19245020", date_time := "2023-10-06T14:22:00" },
         { case_number := "19245021", date_time := "2023-10-06T15:00:00" }]
        "19245020").2 = ⟨200, "OK"⟩ ∧
    removeIncidentHandler
        (removeIncidentHandler
          [{ case_number := "19245020", date_time := "2023-10-06T14:22:00" },
           { case_number := "19245021", date_time := "2023-10-06T15:00:00" }]
          "19245020").1 "19245020" =
      ((removeIncidentHandler
          [{ case_number := "19245020", date_time := "2023-10-06T14:22:00" },
           { case_number := "19245021", date_time := "2023-10-06T15:00:00" }]
          "19245020").1, ⟨500, "Case number does not exist"⟩) :=
  ⟨(claim_C7 _ _ (by decide)).1, (claim_C7 _ _ (by decide)).2.2⟩

/-- C10: the create handler validates nothing beyond the `case_number`
existence check: any body with a novel case number is inserted as-is, and
the stored combined timestamp is the JavaScript string concatenation
`date + 'T' + time` (so a missing field contributes `"undefined"`). -/
theorem claim_C10 (db : List IncidentRow) (b : NewIncidentBody)
    (h : ∀ r ∈ db, r.case_number ≠ b.case_number) :
    newIncidentHandler db b = (db ++ [mkRow b], ⟨200, "OK"⟩) ∧
    (mkRow b).date_time = jsStr b.date ++ "T" ++ jsStr b.time ∧
    (b.date = none → b.time = none → (mkRow b).date_time = "undefinedTundefined") := by
  refine ⟨newIncident_fresh h, rfl, ?_⟩
  intro hd ht
  simp [mkRow, jsStr, hd, ht]

theorem claim_C10_witness :
    newIncidentHandler [] { case_number := "19245022" } =
      ([mkRow { case_number := "19245022" }], ⟨200, "OK"⟩) ∧
    (mkRow { case_number := "19245022" }).date_time = "undefinedTundefined" :=
  ⟨(claim_C10 [] _ (by decide)).1,
    (claim_C10 [] { case_number := "19245022" } (by decide)).2.2 rfl rfl⟩

/-- C6 (amended): a `PUT /new-incident` with a novel `case_number`
answers 200 "OK" and the table afterwards contains exactly one row with
that case number, holding the combined timestamp `date + 'T' + time`;
when the supplied date contains no `'T'`, the store-level split of that
timestamp (modelled from the spec as the cut at the first `'T'`) gives
back exactly the supplied date and time.  (`GET /incidents` has no
`case_number` filter, so "filtered to that case number" is read as
selecting the rows with that case number.) -/
theorem claim_C6 (db : List IncidentRow) (b : NewIncidentBody)
    (h : ∀ r ∈ db, r.case_number ≠ b.case_number) :
    (newIncidentHandler db b).2 = ⟨200, "OK"⟩ ∧
    (newIncidentHandler db b).1.filter (fun r => r.case_number == b.case_number) =
      [mkRow b] ∧
    ('T' ∉ (jsStr b.date).data →
      dateOf (mkRow b).date_time = jsStr b.date ∧
      timeOf (mkRow b).date_time = jsStr b.time) := by
  rw [newIncident_fresh h]
  refine ⟨rfl, ?_, ?_⟩
  · rw [List.filter_append, filter_case_nil h]
    simp [mkRow]
  · intro hT
    exact ⟨dateOf_combined _ _ hT, timeOf_combined _ _ hT⟩

theorem claim_C6_witness :
    (newIncidentHandler []
        { case_number := "19245023", date := some "2023-10-06", time := some "14:22:00" }).2 =
      ⟨200, "OK"⟩ ∧
    dateOf (mkRow { case_number := "19245023", date := some "2023-10-06", time := some "14:22:00" }).date_time = "2023-10-06" ∧
    timeOf (mkRow { case_number := "19245023", date := some "2023-10-06", time := some "14:22:00" }).date_time = "14:22:00" :=
  ⟨(claim_C6 [] _ (by decide)).1,
    ((claim_C6 []
        { case_number := "19245023", date := some "2023-10-06", time := some "14:22:00" }
        (by decide)).2.2 (by decide)).1,
    ((claim_C6 []
        { case_number := "19245023", date := some "2023-10-06", time := some "14:22:00" }
        (by decide)).2.2 (by decide)).2⟩

/-- C6 counterexample: the combine-then-split round trip fails as a
universal statement.  A supplied date itself containing `'T'`
(`"2023T01"`) is stored as `"2023T01T10:00:00"`, and the store-level
split returns date `"2023"`, not the supplied `"2023T01"` — although the
insert itself succeeded with 200 "OK". -/
theorem claim_C6_counterexample :
    (newIncidentHandler []
        { case_number := "19245024", date := some "2023T01", time := some "10:00:00" }).2 =
      ⟨200, "OK"⟩ ∧
    dateOf (mkRow { case_number := "19245024", date := some "2023T01", time := some "10:00:00" }).date_time ≠ jsStr (some "2023T01") ∧
    timeOf (mkRow { case_number := "19245024", date := some "2023T01", time := some "10:00:00" }).date_time ≠ jsStr (some "10:00:00") := by
  decide

/-- C1 (amended): when the `limit` parameter of `GET /incidents` is
present (nonempty) but fails to parse, `parseInt` yields `NaN` and the
handler interpolates it into the SQL text, producing `... LIMIT NaN`
instead of the default cap; the default `LIMIT 1000` is used only when
the parameter is absent or empty (falsy). -/
theorem claim_C1 :
    (∀ (q : IncidentsQuery) (s : String), q.limit = some s → s ≠ "" →
      jsParseInt s = none →
      (incidentsHandlerQuery q).1 = incidentsTextNoLimit q ++ " LIMIT NaN") ∧
    (∀ q : IncidentsQuery, truthy q.limit = false →
      (incidentsHandlerQuery q).1 = incidentsTextNoLimit q ++ " LIMIT 1000") := by
  constructor
  · intro q s hq hs hp
    have ht : truthy (some s) = true := by simp [truthy, hs]
    have : limitValue q.limit = none := by
      simp [limitValue, hq, ht, optVal, hp]
    simp only [incidentsHandlerQuery, this, numDisplay]
    apply String.ext
    simp [String.data_append]
  · intro q ht
    have : limitValue q.limit = some 1000 := by simp [limitValue, ht]
    simp only [incidentsHandlerQuery, this, numDisplay]
    apply String.ext
    simp [String.data_append]
    decide

theorem claim_C1_witness :
    (incidentsHandlerQuery { limit := some "abc" }).1 =
      incidentsTextNoLimit { limit := some "abc" } ++ " LIMIT NaN" ∧
    (incidentsHandlerQuery { limit := none }).1 =
      incidentsTextNoLimit { limit := none } ++ " LIMIT 1000" :=
  ⟨claim_C1.1 _ "abc" rfl (by decide) (by decide), claim_C1.2 _ (by decide)⟩

set_option maxRecDepth 10000 in
/-- C1 counterexample: for `limit=abc` the handler does *not* fall back
to the default cap of 1000 — the generated SQL text differs from the
no-limit request's text (it ends in `LIMIT NaN`, which is not valid SQL,
so the request errors rather than succeeding with the capped result). -/
theorem claim_C1_counterexample :
    numDisplay (limitValue (some "abc")) = "NaN" ∧
    (incidentsHandlerQuery { limit := some "abc" }).1 ≠
      (incidentsHandlerQuery { limit := none }).1 := by
  decide

set_option maxRecDepth 10000 in
/-- C2 (amended): no *filter* value reaches the SQL text — for `/codes`,
`/neighborhoods` and the where/order part of `/incidents`, two requests
whose recognized filter parameters have the same shape (same presence,
same comma-element counts) produce identical SQL text, and the number of
`?` placeholders in that text equals the number of bound parameters (one
placeholder per bound value).  The exception forced by the code is the
`limit` parameter of `/incidents`, whose parsed numeric value is
interpolated directly into the text after the fixed order clause. -/
theorem claim_C2 :
    (∀ c1 c2 : Option String, listShape c1 = listShape c2 →
      (codesHandlerQuery c1).1 = (codesHandlerQuery c2).1) ∧
    (∀ i1 i2 : Option String, listShape i1 = listShape i2 →
      (neighborhoodsHandlerQuery i1).1 = (neighborhoodsHandlerQuery i2).1) ∧
    (∀ q1 q2 : IncidentsQuery, incidentsShape q1 = incidentsShape q2 →
      incidentsTextNoLimit q1 = incidentsTextNoLimit q2) ∧
    (∀ q : IncidentsQuery, (incidentsHandlerQuery q).1 =
      incidentsTextNoLimit q ++ " LIMIT " ++ numDisplay (limitValue q.limit)) ∧
    (∀ c : Option String,
      countQ (codesHandlerQuery c).1 = (codesHandlerQuery c).2.length) ∧
    (∀ i : Option String,
      countQ (neighborhoodsHandlerQuery i).1 = (neighborhoodsHandlerQuery i).2.length) ∧
    (∀ q : IncidentsQuery,
      countQ (incidentsTextNoLimit q) = (incidentsHandlerQuery q).2.length) := by
  have hAND : countQ " AND " = 0 := by decide
  have hk1 : countQ "date(date_time) >= ?" = 1 := by decide
  have hk2 : countQ "date(date_time) <= ?" = 1 := by decide
  have hbase : countQ incidentsBase = 0 := by decide
  have hwh : countQ " WHERE " = 0 := by decide
  have hcin : countQ "code IN (" = 0 := by decide
  have hgin : countQ "police_grid IN (" = 0 := by decide
  have hnin : countQ "neighborhood_number IN (" = 0 := by decide
  have hcl : countQ ")" = 0 := by decide
  have hord : countQ " ORDER BY date_time DESC" = 0 := by decide
  have hcb : countQ "SELECT code, incident_type FROM Codes WHERE code IN (" = 0 := by decide
  have hcb0 : countQ "SELECT code, incident_type FROM Codes" = 0 := by decide
  have hco : countQ " ORDER BY code" = 0 := by decide
  have hnb : countQ "SELECT neighborhood_number, neighborhood_name FROM Neighborhoods WHERE neighborhood_number IN (" = 0 := by decide
  have hnb0 : countQ "SELECT neighborhood_number, neighborhood_name FROM Neighborhoods" = 0 := by decide
  have hno : countQ " ORDER BY neighborhood_number" = 0 := by decide
  have hcf : countQ "SELECT code, incident_type FROM Codes ORDER BY code" = 0 := by decide
  have hnf : countQ "SELECT neighborhood_number, neighborhood_name FROM Neighborhoods ORDER BY neighborhood_number" = 0 := by decide
  refine ⟨?_, ?_, ?_, fun q => rfl, ?_, ?_, ?_⟩
  · intro c1 c2 h
    cases h1 : truthy c1 <;> cases h2 : truthy c2 <;>
      simp [listShape, h1, h2] at h <;>
      simp [codesHandlerQuery, h1, h2, placeholdersFor_eq]
    rw [h]
  · intro i1 i2 h
    cases h1 : truthy i1 <;> cases h2 : truthy i2 <;>
      simp [listShape, h1, h2] at h <;>
      simp [neighborhoodsHandlerQuery, h1, h2, placeholdersFor_eq]
    rw [h]
  · intro q1 q2 h
    simp only [incidentsTextNoLimit, incidentsWhere_eq, h]
  · intro c
    cases h1 : truthy c <;>
      simp [codesHandlerQuery, h1, countQ_append, countQ_placeholdersFor,
        hcb, hcb0, hcl, hco, hcf]
  · intro i
    cases h1 : truthy i <;>
      simp [neighborhoodsHandlerQuery, h1, countQ_append, countQ_placeholdersFor,
        hnb, hnb0, hcl, hno, hnf]
  · intro q
    simp only [incidentsTextNoLimit, incidentsHandlerQuery, incidentsWhere_eq]
    cases hsd : truthy q.start_date <;> cases hed : truthy q.end_date <;>
      cases hc : truthy q.code <;> cases hg : truthy q.grid <;>
      cases hn : truthy q.neighborhood <;>
      simp [clausesOfShape, incidentsShape, incidentsParamsSpec, listShape,
        hsd, hed, hc, hg, hn, countQ_append, countQ_intercalate " AND " hAND,
        countQ_phOfLen, hk1, hk2, hbase, hwh, hcin, hgin, hnin, hcl, hord,
        List.length_append] <;>
      omega

theorem claim_C2_witness :
    (codesHandlerQuery (some "110,700")).1 = (codesHandlerQuery (some " 1 ,2222")).1 ∧
    incidentsTextNoLimit { code := some "110,700", grid := some "87" } =
      incidentsTextNoLimit { code := some "8,9", grid := some "1234" } ∧
    countQ (incidentsTextNoLimit { code := some "110,700", grid := some "87" }) =
      (incidentsHandlerQuery { code := some "110,700", grid := some "87" }).2.length :=
  ⟨claim_C2.1 _ _ (by decide),
    claim_C2.2.2.1 _ _ (by decide),
    claim_C2.2.2.2.2.2.2 _⟩

set_option maxRecDepth 10000 in
/-- C2 counterexample: the `limit` parameter is a recognized query
parameter whose supplied value *is* interpolated into the SQL text — two
`GET /incidents` requests of identical shape (every parameter equally
present, equal element counts, `limit` a single element in both) produce
different SQL text when `limit=5` versus `limit=10`. -/
theorem claim_C2_counterexample :
    incidentsFullShape { limit := some "5" } = incidentsFullShape { limit := some "10" } ∧
    (incidentsHandlerQuery { limit := some "5" }).1 ≠
      (incidentsHandlerQuery { limit := some "10" }).1 := by
  decide

/-- C3 (amended): a present list-membership filter value is split on
`','` and each element trimmed; the builder emits an `IN` clause with
exactly one placeholder per *split element — empty elements included* —
and appends the elements to the parameter list in their original order;
an absent parameter contributes no clause and no parameters
(`phOfLen n`, the clause's placeholder fragment, carries exactly `n`
placeholders). -/
theorem claim_C3 :
    (∀ s : String, s ≠ "" →
      (codesHandlerQuery (some s)).2 = commaSplitTrim s ∧
      countQ (codesHandlerQuery (some s)).1 = (commaSplitTrim s).length) ∧
    codesHandlerQuery none = ("SELECT code, incident_type FROM Codes ORDER BY code", []) ∧
    (∀ s : String, s ≠ "" →
      (neighborhoodsHandlerQuery (some s)).2 = commaSplitTrim s ∧
      countQ (neighborhoodsHandlerQuery (some s)).1 = (commaSplitTrim s).length) ∧
    neighborhoodsHandlerQuery none =
      ("SELECT neighborhood_number, neighborhood_name FROM Neighborhoods ORDER BY neighborhood_number", []) ∧
    (∀ s : String, s ≠ "" → incidentsWhere { code := some s } =
      (["code IN (" ++ phOfLen (commaSplitTrim s).length ++ ")"], commaSplitTrim s)) ∧
    (∀ s : String, s ≠ "" → incidentsWhere { grid := some s } =
      (["police_grid IN (" ++ phOfLen (commaSplitTrim s).length ++ ")"], commaSplitTrim s)) ∧
    (∀ s : String, s ≠ "" → incidentsWhere { neighborhood := some s } =
      (["neighborhood_number IN (" ++ phOfLen (commaSplitTrim s).length ++ ")"], commaSplitTrim s)) ∧
    incidentsWhere {} = ([], []) ∧
    (∀ n : Nat, countQ (phOfLen n) = n) := by
  have hcb : countQ "SELECT code, incident_type FROM Codes WHERE code IN (" = 0 := by decide
  have hnb : countQ "SELECT neighborhood_number, neighborhood_name FROM Neighborhoods WHERE neighborhood_number IN (" = 0 := by decide
  have hcl : countQ ")" = 0 := by decide
  have hco : countQ " ORDER BY code" = 0 := by decide
  have hno : countQ " ORDER BY neighborhood_number" = 0 := by decide
  refine ⟨?_, rfl, ?_, rfl, ?_, ?_, ?_, rfl, countQ_phOfLen⟩
  · intro s hs
    have ht : truthy (some s) = true := by simp [truthy, hs]
    constructor
    · simp [codesHandlerQuery, ht, optVal]
    · simp [codesHandlerQuery, ht, optVal, countQ_append, countQ_placeholdersFor,
        hcb, hcl, hco]
  · intro s hs
    have ht : truthy (some s) = true := by simp [truthy, hs]
    constructor
    · simp [neighborhoodsHandlerQuery, ht, optVal]
    · simp [neighborhoodsHandlerQuery, ht, optVal, countQ_append, countQ_placeholdersFor,
        hnb, hcl, hno]
  · intro s hs
    have ht : truthy (some s) = true := by simp [truthy, hs]
    simp [incidentsWhere, truthy, ht, optVal, placeholdersFor_eq, hs]
  · intro s hs
    have ht : truthy (some s) = true := by simp [truthy, hs]
    simp [incidentsWhere, truthy, ht, optVal, placeholdersFor_eq, hs]
  · intro s hs
    have ht : truthy (some s) = true := by simp [truthy, hs]
    simp [incidentsWhere, truthy, ht, optVal, placeholdersFor_eq, hs]

theorem claim_C3_witness :
    (codesHandlerQuery (some "110, 700 ,861")).2 = ["110", "700", "861"] ∧
    countQ (codesHandlerQuery (some "110, 700 ,861")).1 = 3 ∧
    incidentsWhere { grid := some "87,129" } =
      (["police_grid IN (" ++ phOfLen 2 ++ ")"], ["87", "129"]) := by
  refine ⟨?_, ?_, ?_⟩
  · rw [(claim_C3.1 "110, 700 ,861" (by decide)).1]; decide
  · rw [(claim_C3.1 "110, 700 ,861" (by decide)).2]; decide
  · rw [claim_C3.2.2.2.2.2.1 "87,129" (by decide)]; decide

/-- C3 counterexample: the builder does *not* restrict placeholders to
the non-empty trimmed elements.  For `code=1,,2` on `/codes` the trimmed
non-empty elements number two, yet the clause carries three placeholders
and the empty middle element is bound as a parameter. -/
theorem claim_C3_counterexample :
    countQ (codesHandlerQuery (some "1,,2")).1 = 3 ∧
    ((commaSplitTrim "1,,2").filter (fun e => !(e == ""))).length = 2 ∧
    (codesHandlerQuery (some "1,,2")).2 = ["1", "", "2"] ∧
    countQ (codesHandlerQuery (some "1,,2")).1 ≠
      ((commaSplitTrim "1,,2").filter (fun e => !(e == ""))).length := by
  decide

/-- C8: each read endpoint's generated SQL carries a fixed ordering
clause whatever the filters: `/codes` ends in `ORDER BY code`
(ascending), `/neighborhoods` in `ORDER BY neighborhood_number`
(ascending), and `/incidents` places `ORDER BY date_time DESC`
(most recent first) right before its `LIMIT` fragment, for every
combination of parameters. -/
theorem claim_C8 :
    (∀ code : Option String, ∃ w,
      (codesHandlerQuery code).1 = w ++ " ORDER BY code") ∧
    (∀ id : Option String, ∃ w,
      (neighborhoodsHandlerQuery id).1 = w ++ " ORDER BY neighborhood_number") ∧
    (∀ q : IncidentsQuery, ∃ w,
      (incidentsHandlerQuery q).1 =
        w ++ " ORDER BY date_time DESC" ++ " LIMIT " ++ numDisplay (limitValue q.limit)) := by
  refine ⟨?_, ?_, ?_⟩
  · intro c
    cases h : truthy c with
    | false => exact ⟨"SELECT code, incident_type FROM Codes", by simp [codesHandlerQuery, h]⟩
    | true =>
      exact ⟨"SELECT code, incident_type FROM Codes" ++ " WHERE code IN (" ++
        placeholdersFor (commaSplitTrim (optVal c)) ++ ")", by simp [codesHandlerQuery, h]⟩
  · intro i
    cases h : truthy i with
    | false =>
      exact ⟨"SELECT neighborhood_number, neighborhood_name FROM Neighborhoods",
        by simp [neighborhoodsHandlerQuery, h]⟩
    | true =>
      exact ⟨"SELECT neighborhood_number, neighborhood_name FROM Neighborhoods" ++
        " WHERE neighborhood_number IN (" ++
        placeholdersFor (commaSplitTrim (optVal i)) ++ ")",
        by simp [neighborhoodsHandlerQuery, h]⟩
  · intro q
    refine ⟨if (incidentsWhere q).1.length > 0 then
        incidentsBase ++ " WHERE " ++ String.intercalate " AND " (incidentsWhere q).1
      else incidentsBase, ?_⟩
    rfl

/-- C9: a recognized parameter supplied as the empty string is falsy in
JavaScript, so every handler treats it exactly like an absent parameter:
the generated SQL text and bound-parameter list are identical, hence so
is the response computed from them (for `/incidents` this holds for all
six recognized parameters at once, `limit` included). -/
theorem claim_C9 :
    (∀ c : Option String, codesHandlerQuery (normalizeEmpty c) = codesHandlerQuery c) ∧
    (∀ i : Option String,
      neighborhoodsHandlerQuery (normalizeEmpty i) = neighborhoodsHandlerQuery i) ∧
    (∀ q : IncidentsQuery, incidentsHandlerQuery (normalizeQuery q) = incidentsHandlerQuery q) := by
  refine ⟨?_, ?_, ?_⟩ <;> intro x <;>
    simp [codesHandlerQuery, neighborhoodsHandlerQuery, incidentsHandlerQuery,
      incidentsTextNoLimit, incidentsWhere, limitValue, normalizeQuery,
      truthy_normalizeEmpty, optVal_normalizeEmpty]

end RestServer
